import Mathlib

/-
Verification of the fal.ai request adapter (src/unnamed/part_000):
payload building, cost estimation and response normalization for
`generateImage` and `generateFluxProUltraImage`.

Modelling conventions:
- JavaScript numbers are modelled as exact rationals (ℚ); pixel dimensions
  reported by the provider are nonnegative integers (ℕ).
- `x.toFixed(3)` followed by `Number(...)` is modelled as rounding to the
  nearest multiple of 1/1000, halves rounded up, which is the JS behaviour
  on the nonnegative values arising here.
- An optional JS object property is an `Option`: `none` means the property
  is absent from the object. Where the code can put an explicit
  `undefined` value into a property (the ultra payload literal writes
  `seed,` unconditionally), the field is `Option (Option _)`: the outer
  layer is property presence, the inner layer is `undefined` versus a value.
- A thrown JS value is `JsThrown`: either an `Error` (with `message` and an
  optional numeric `status` read off the object), or a non-`Error` value.
- The remote call `fal.subscribe` is an external collaborator: each entry
  point takes its outcome as an argument, either a thrown value or a
  response whose `data.images` field is `none` (undefined) or a list.
-/

namespace FluxApi

/-- Model aliases, the keys of AVAILABLE_MODELS in the source. -/
inductive ModelAlias
  | fluxPro
  | fluxLora
  | fluxDev
  | fluxSchnell
deriving DecidableEq, Repr

/-- AVAILABLE_MODELS: alias to provider model identifier. -/
def AVAILABLE_MODELS : ModelAlias → String
  | ModelAlias.fluxPro => "fal-ai/flux-pro/v1.1-ultra"
  | ModelAlias.fluxLora => "fal-ai/flux-lora"
  | ModelAlias.fluxDev => "fal-ai/flux/dev"
  | ModelAlias.fluxSchnell => "fal-ai/flux/schnell"

/-- COST_PER_MEGAPIXEL rate table. Every alias has an entry, so the
source expression `COST_PER_MEGAPIXEL[model] || 0` never takes the
`|| 0` branch; the lookup is modelled as this total function. -/
def COST_PER_MEGAPIXEL : ModelAlias → ℚ
  | ModelAlias.fluxPro => 1/20
  | ModelAlias.fluxDev => 1/40
  | ModelAlias.fluxSchnell => 3/1000
  | ModelAlias.fluxLora => 1/40

/-- Model of `Number(x.toFixed(3))` on the nonnegative rationals used
here: round to 3 decimal places, halves up. -/
def toFixed3 (q : ℚ) : ℚ := ((⌊q * 1000 + 1/2⌋ : ℤ) : ℚ) / 1000

/-- calculateImageCost from the source: megapixels = width*height/1000000,
times the per-megapixel rate, rounded to 3 decimals. -/
def calculateImageCost (width height : ℚ) (model : ModelAlias) : ℚ :=
  toFixed3 (width * height / 1000000 * COST_PER_MEGAPIXEL model)

/-- One image of a provider response. `url` is `none` when the object has
no (or an undefined) `url` property; dimensions are pixel counts, `none`
when the property is absent. -/
structure FalImage where
  url : Option String := none
  width : Option Nat := none
  height : Option Nat := none
deriving DecidableEq, Repr

/-- The JS expression `dim || 2048` applied to an image dimension: both a
missing dimension (undefined) and a present value 0 are falsy, so both
fall back to 2048. -/
def imageDimension (d : Option Nat) : ℚ :=
  match d with
  | none => 2048
  | some w => if w = 0 then 2048 else (w : ℚ)

/-- The cost one response image contributes inside the reduce of
`generateImage`: `calculateImageCost(image.width || 2048,
image.height || 2048, model)`. -/
def perImageCost (img : FalImage) (model : ModelAlias) : ℚ :=
  calculateImageCost (imageDimension img.width) (imageDimension img.height) model

/-- A thrown JS value: an Error carrying a message and an optional numeric
`status` property, or any non-Error value. -/
inductive JsThrown
  | jsError (message : String) (status : Option Nat)
  | nonError
deriving DecidableEq, Repr

/-- The successful return value of `generateImage`. The optional `logs`
field of the source return type is never populated and is omitted. -/
structure GenResult where
  status : String
  imageUrls : List (Option String)
  cost : ℚ
deriving DecidableEq, Repr

/-- Response handling of `generateImage`, from the `console.log` after the
`fal.subscribe` call up to building the result record. When `data.images`
is undefined, the log argument evaluates `result.data.images.map(...)`
BEFORE the emptiness check and throws a TypeError (the string below stands
for the V8 message, quotes around the property name elided); only when
`images` is a present, empty list does the guard
`!result?.data?.images?.length` throw `Error("No images in response")`.
Otherwise the result has status "COMPLETED", the urls in provider order,
and the reduce-accumulated total cost. -/
def genNormalize (images : Option (List FalImage)) (model : ModelAlias) :
    Except JsThrown GenResult :=
  match images with
  | none =>
      Except.error
        (JsThrown.jsError "Cannot read properties of undefined (reading map)" none)
  | some imgs =>
      if imgs.length = 0 then
        Except.error (JsThrown.jsError "No images in response" none)
      else
        Except.ok
          { status := "COMPLETED"
            imageUrls := imgs.map FalImage.url
            cost := imgs.foldl (fun acc img => acc + perImageCost img model) 0 }

/-- The catch block shared by `generateImage` and
`generateFluxProUltraImage`: an Error keeps its message, with
" (Status: c)" appended when the error has a truthy `status` property; a
non-Error becomes the literal "Unknown error"; the result is prefixed
with "Failed to generate image: ". -/
def formatCaughtError (e : JsThrown) : String :=
  match e with
  | JsThrown.jsError msg status =>
      "Failed to generate image: " ++ msg ++
        (match status with
         | some c => if c = 0 then "" else " (Status: " ++ toString c ++ ")"
         | none => "")
  | JsThrown.nonError => "Failed to generate image: Unknown error"

/-- generateImage after the remote call: `outcome` is what `fal.subscribe`
did (threw, or returned a response whose `data.images` is `images`); any
value thrown inside the try block is rewrapped by the catch block. -/
def generateImage (outcome : Except JsThrown (Option (List FalImage)))
    (model : ModelAlias) : Except String GenResult :=
  match outcome with
  | Except.error e => Except.error (formatCaughtError e)
  | Except.ok images =>
      match genNormalize images model with
      | Except.error e => Except.error (formatCaughtError e)
      | Except.ok r => Except.ok r

/-- Options bag of `generateImage`; every field is optional, `none` means
the caller did not supply it (JS `undefined`). -/
structure GenOptions where
  seed : Option Int := none
  enable_safety_checker : Option Bool := none
  safety_tolerance : Option String := none
  output_format : Option String := none
  raw : Option Bool := none
deriving DecidableEq, Repr

/-- The input object `generateImage` passes to `fal.subscribe`. `seed` and
`raw` are spread in only when defined, so `none` here means the property
is truly absent from the payload object. -/
structure GenPayload where
  prompt : String
  aspect_ratio : String
  num_images : Int
  enable_safety_checker : Bool
  safety_tolerance : String
  output_format : String
  seed : Option Int
  raw : Option Bool
deriving DecidableEq, Repr

/-- Payload building of `generateImage`: clamp `num_images` with
`Math.min(Math.max(1, numImages), 4)`, default the safety / tolerance /
format options with `??`, and spread `seed` and `raw` in only when they
are `!== undefined`. -/
def buildGenPayload (prompt aspectRatio : String) (numImages : Int)
    (options : Option GenOptions) : GenPayload :=
  { prompt := prompt
    aspect_ratio := aspectRatio
    num_images := min (max 1 numImages) 4
    enable_safety_checker := (options.bind GenOptions.enable_safety_checker).getD false
    safety_tolerance := (options.bind GenOptions.safety_tolerance).getD "6"
    output_format := (options.bind GenOptions.output_format).getD "jpeg"
    seed := options.bind GenOptions.seed
    raw := options.bind GenOptions.raw }

/-- The destructured argument of `generateFluxProUltraImage` (FluxProUltraInput
plus apiKey, which carries no payload information). `none` means the caller
did not pass the property. The source declares `num_images` as a string and
sends `Number(num_images)` (default "1"); the field is modelled by the
numeric value of that string. -/
structure UltraInput where
  prompt : String
  seed : Option Int := none
  sync_mode : Option Bool := none
  num_images : Option Int := none
  enable_safety_checker : Option Bool := none
  safety_tolerance : Option String := none
  output_format : Option String := none
  aspect_ratio : Option String := none
  raw : Option Bool := none
  image_url : Option String := none
  image_prompt_strength : Option ℚ := none
deriving DecidableEq, Repr

/-- The input object `generateFluxProUltraImage` passes to `fal.subscribe`.
`seed` is written unconditionally in the object literal, so the property is
always present and its value may be `undefined`: the outer `Option` is
property presence (always `some` here), the inner one is undefined versus a
value. `image_url` and `image_prompt_strength` are spread in only when
truthy, and `none` means the property is absent. -/
structure UltraPayload where
  prompt : String
  seed : Option (Option Int)
  sync_mode : Bool
  num_images : Int
  enable_safety_checker : Bool
  safety_tolerance : String
  output_format : String
  aspect_ratio : String
  raw : Bool
  image_url : Option String
  image_prompt_strength : Option ℚ
deriving DecidableEq, Repr

/-- Payload building of `generateFluxProUltraImage`: destructuring defaults
(sync_mode false, num_images "1", safety checker false, tolerance "6",
format "jpeg", aspect ratio "16:9", raw false), `seed` passed through
unconditionally, `num_images` converted by `Number(...)`, and
`...(image_url && \x7b image_url \x7d)` /
`...(image_prompt_strength && \x7b image_prompt_strength \x7d)`: a falsy
value (undefined, the empty string, 0) leaves the property absent. -/
def buildUltraPayload (input : UltraInput) : UltraPayload :=
  { prompt := input.prompt
    seed := some input.seed
    sync_mode := input.sync_mode.getD false
    num_images := input.num_images.getD 1
    enable_safety_checker := input.enable_safety_checker.getD false
    safety_tolerance := input.safety_tolerance.getD "6"
    output_format := input.output_format.getD "jpeg"
    aspect_ratio := Option.getD (UltraInput.aspect_ratio input) "16:9"
    raw := input.raw.getD false
    image_url :=
      match input.image_url with
      | some u => if u = "" then none else some u
      | none => none
    image_prompt_strength :=
      match input.image_prompt_strength with
      | some s => if s = 0 then none else some s
      | none => none }

/-- Response handling of `generateFluxProUltraImage`: the guard
`!result?.data?.images?.[0]?.url` throws when `data.images` is undefined,
empty, or its first image has no (or an empty, hence falsy) url; otherwise
the url of the FIRST image is returned, whatever follows it. (The log
before the guard only reads `result.data.images` and cannot throw here.) -/
def ultraNormalize (images : Option (List FalImage)) : Except JsThrown String :=
  match images with
  | none => Except.error (JsThrown.jsError "No image URL in response" none)
  | some imgs =>
      match imgs.head? with
      | none => Except.error (JsThrown.jsError "No image URL in response" none)
      | some img =>
          match img.url with
          | none => Except.error (JsThrown.jsError "No image URL in response" none)
          | some u =>
              if u = "" then
                Except.error (JsThrown.jsError "No image URL in response" none)
              else Except.ok u

/-- generateFluxProUltraImage after the remote call, with the same catch
block as `generateImage`. -/
def generateFluxProUltraImage (outcome : Except JsThrown (Option (List FalImage))) :
    Except String String :=
  match outcome with
  | Except.error e => Except.error (formatCaughtError e)
  | Except.ok images =>
      match ultraNormalize images with
      | Except.error e => Except.error (formatCaughtError e)
      | Except.ok u => Except.ok u

/-- Substring containment, used to state that an error message references
a given phrase. -/
def containsStr (s sub : String) : Prop := sub.data <:+: s.data

instance (s sub : String) : Decidable (containsStr s sub) :=
  List.decidableInfix sub.data s.data

end FluxApi

namespace FluxApi

/-- Evaluation helper: `toFixed3 q = k / 1000` once `k` brackets `q * 1000 + 1/2`. -/
theorem toFixed3_eval (q : ℚ) (k : ℤ) (h1 : (k : ℚ) ≤ q * 1000 + 1/2)
    (h2 : q * 1000 + 1/2 < k + 1) : toFixed3 q = (k : ℚ) / 1000 := by
  unfold toFixed3
  rw [Int.floor_eq_iff.mpr ⟨h1, h2⟩]

/-- Every rate in the table is nonnegative. -/
theorem cost_rate_nonneg (m : ModelAlias) : 0 ≤ COST_PER_MEGAPIXEL m := by
  cases m <;> norm_num [COST_PER_MEGAPIXEL]

/-- Every rate in the table is positive. -/
theorem cost_rate_pos (m : ModelAlias) : 0 < COST_PER_MEGAPIXEL m := by
  cases m <;> norm_num [COST_PER_MEGAPIXEL]

/-- The effective dimension `d || 2048` is nonnegative. -/
theorem imageDimension_nonneg (d : Option Nat) : 0 ≤ imageDimension d := by
  rcases d with _ | w
  · norm_num [imageDimension]
  · unfold imageDimension
    by_cases h : w = 0 <;> simp [h]

/-- Rounding a nonnegative value keeps it nonnegative. -/
theorem toFixed3_nonneg (q : ℚ) (h : 0 ≤ q) : 0 ≤ toFixed3 q := by
  unfold toFixed3
  have h1 : (0 : ℚ) ≤ q * 1000 + 1/2 := by linarith
  have h2 : (0 : ℤ) ≤ ⌊q * 1000 + 1/2⌋ := Int.le_floor.mpr (by exact_mod_cast h1)
  have h3 : (0 : ℚ) ≤ ((⌊q * 1000 + 1/2⌋ : ℤ) : ℚ) := by exact_mod_cast h2
  positivity

/-- The rounded value is an integer number of thousandths. -/
theorem toFixed3_thousandth (q : ℚ) : ∃ k : ℤ, toFixed3 q = (k : ℚ) / 1000 :=
  ⟨⌊q * 1000 + 1/2⌋, rfl⟩

/-- Rounding a value of at least half a thousandth gives a positive result. -/
theorem toFixed3_pos (q : ℚ) (h : 1/2 ≤ q * 1000) : 0 < toFixed3 q := by
  unfold toFixed3
  have h1 : (1 : ℤ) ≤ ⌊q * 1000 + 1/2⌋ := Int.le_floor.mpr (by push_cast; linarith)
  have h2 : (0 : ℚ) < ((⌊q * 1000 + 1/2⌋ : ℤ) : ℚ) := by exact_mod_cast h1
  exact div_pos h2 (by norm_num)

/-- Each per-image cost is nonnegative. -/
theorem perImageCost_nonneg (img : FalImage) (m : ModelAlias) : 0 ≤ perImageCost img m := by
  unfold perImageCost calculateImageCost
  apply toFixed3_nonneg
  have hw := imageDimension_nonneg img.width
  have hh := imageDimension_nonneg img.height
  have hr := cost_rate_nonneg m
  positivity

/-- The cost accumulator of `generateImage` is the sum of per-image costs. -/
theorem foldl_cost_eq_sum (m : ModelAlias) :
    ∀ (l : List FalImage) (acc : ℚ),
      l.foldl (fun a img => a + perImageCost img m) acc =
        acc + (l.map (fun img => perImageCost img m)).sum := by
  intro l
  induction l with
  | nil => intro acc; simp
  | cons x xs ih =>
      intro acc
      simp only [List.foldl_cons, List.map_cons, List.sum_cons, ih]
      ring

/-- A sum of integer thousandths is an integer thousandth. -/
theorem sum_thousandths :
    ∀ l : List ℚ, (∀ x ∈ l, ∃ k : ℤ, x = (k : ℚ) / 1000) →
      ∃ k : ℤ, l.sum = (k : ℚ) / 1000 := by
  intro l
  induction l with
  | nil => exact fun _ => ⟨0, by norm_num⟩
  | cons x xs ih =>
      intro h
      obtain ⟨k, hk⟩ := h x (by simp)
      obtain ⟨K, hK⟩ := ih fun y hy => h y (by simp [hy])
      refine ⟨k + K, ?_⟩
      rw [List.sum_cons, hk, hK]
      push_cast
      ring

/-- Characterization of a successful `genNormalize`. -/
theorem genNormalize_ok_iff (imgs : List FalImage) (m : ModelAlias) (r : GenResult) :
    genNormalize (some imgs) m = Except.ok r ↔
      imgs ≠ [] ∧
      r = { status := "COMPLETED", imageUrls := imgs.map FalImage.url,
            cost := imgs.foldl (fun acc img => acc + perImageCost img m) 0 } := by
  rcases imgs with _ | ⟨a, rest⟩
  · simp [genNormalize]
  · simp [genNormalize, eq_comm]

/-- Helper: evaluate a per-image cost from the value of its rounding
argument and the bracketing integer. -/
theorem perImageCost_value (img : FalImage) (m : ModelAlias) (q : ℚ) (k : ℤ)
    (harg : imageDimension img.width * imageDimension img.height / 1000000 *
      COST_PER_MEGAPIXEL m = q)
    (h1 : (k : ℚ) ≤ q * 1000 + 1/2) (h2 : q * 1000 + 1/2 < k + 1) :
    perImageCost img m = (k : ℚ) / 1000 := by
  unfold perImageCost calculateImageCost
  rw [harg, toFixed3_eval q k h1 h2]

/-- A successful `generateImage` call is exactly a successful normalization
of a present image list. -/
theorem generateImage_ok_iff (out : Except JsThrown (Option (List FalImage)))
    (m : ModelAlias) (r : GenResult) :
    generateImage out m = Except.ok r ↔
      ∃ imgs, out = Except.ok (some imgs) ∧ genNormalize (some imgs) m = Except.ok r := by
  rcases out with e | images
  · simp [generateImage]
  · rcases images with _ | imgs
    · simp [generateImage, genNormalize]
    · simp only [generateImage]
      rcases h : genNormalize (some imgs) m with e | r'
      · simp [h]
      · simp [h]

/-- C1 counterexample: the claim quantifies over every dispatching function,
but `generateFluxProUltraImage` places the caller count in the payload
unclamped: a caller count of 5 is sent as 5, while min(max(1,5),4) = 4. -/
theorem c1_ultra_unclamped_counterexample :
    (buildUltraPayload { prompt := "p", num_images := some 5 }).num_images = 5 ∧
    min (max 1 (5 : Int)) 4 = 4 ∧
    (buildUltraPayload { prompt := "p", num_images := some 5 }).num_images ≠
      min (max 1 (5 : Int)) 4 := by
  refine ⟨rfl, by decide, by decide⟩

/-- C1 amended: `generateImage` places min(max(1,n),4) in the payload, a
value always in [1,4] that equals n whenever n is already in [1,4];
`generateFluxProUltraImage`, however, sends the caller-supplied numeric
count unchanged (default 1), with no clamping. -/
theorem c1_num_images_clamped :
    (∀ p a n opts, (buildGenPayload p a n opts).num_images = min (max 1 n) 4) ∧
    (∀ p a n opts, 1 ≤ (buildGenPayload p a n opts).num_images ∧
        (buildGenPayload p a n opts).num_images ≤ 4) ∧
    (∀ p a n opts, 1 ≤ n → n ≤ 4 → (buildGenPayload p a n opts).num_images = n) ∧
    (∀ input, (buildUltraPayload input).num_images = input.num_images.getD 1) := by
  refine ⟨fun p a n opts => rfl, fun p a n opts => ?_, fun p a n opts h1 h4 => ?_,
    fun input => rfl⟩
  · simp only [buildGenPayload]
    omega
  · simp only [buildGenPayload]
    omega

/-- C1 witness at n = 3. -/
theorem c1_num_images_clamped_witness :
    (1 : Int) ≤ 3 ∧ (3 : Int) ≤ 4 ∧ (buildGenPayload "p" "1:1" 3 none).num_images = 3 :=
  ⟨by decide, by decide, c1_num_images_clamped.2.2.1 "p" "1:1" 3 none (by decide) (by decide)⟩

/-- C6 counterexample: in `generateFluxProUltraImage`, a caller-supplied
`image_prompt_strength` of 0 is dropped from the payload (it is falsy), and
a caller who does not pass `seed` still gets a `seed` property in the
payload object (with value undefined). -/
theorem c6_optional_fields_counterexample :
    (buildUltraPayload { prompt := "p", image_prompt_strength := some 0 }).image_prompt_strength
      = none ∧
    (buildUltraPayload { prompt := "p" }).seed = some none := by
  constructor
  · simp [buildUltraPayload]
  · rfl

/-- C6 amended: in `generateImage` the payload contains `seed` / `raw`
exactly when the caller supplied them, with the caller value. In
`generateFluxProUltraImage` the `seed` property is always present (carrying
undefined when unset), `raw` is always present (false when unset), and
`image_url` / `image_prompt_strength` are present if and only if the
supplied value is truthy: a non-empty string, respectively a nonzero
number; falsy supplied values are silently dropped. -/
theorem c6_optional_fields :
    (∀ p a n opts, (buildGenPayload p a n opts).seed = opts.bind GenOptions.seed ∧
        (buildGenPayload p a n opts).raw = opts.bind GenOptions.raw) ∧
    (∀ input, (buildUltraPayload input).seed = some input.seed) ∧
    (∀ input, (buildUltraPayload input).raw = input.raw.getD false) ∧
    (∀ input u, input.image_url = some u → u ≠ "" →
        (buildUltraPayload input).image_url = some u) ∧
    (∀ input, input.image_url = none ∨ input.image_url = some "" →
        (buildUltraPayload input).image_url = none) ∧
    (∀ input s, input.image_prompt_strength = some s → s ≠ 0 →
        (buildUltraPayload input).image_prompt_strength = some s) ∧
    (∀ input, input.image_prompt_strength = none ∨ input.image_prompt_strength = some 0 →
        (buildUltraPayload input).image_prompt_strength = none) := by
  refine ⟨fun p a n opts => ⟨rfl, rfl⟩, fun input => rfl, fun input => rfl, ?_, ?_, ?_, ?_⟩
  · intro input u hu hne
    simp [buildUltraPayload, hu, hne]
  · intro input h
    rcases h with h | h <;> simp [buildUltraPayload, h]
  · intro input s hs hne
    simp [buildUltraPayload, hs, hne]
  · intro input h
    rcases h with h | h <;> simp [buildUltraPayload, h]

/-- C6 witness: truthy supplied values are kept. -/
theorem c6_optional_fields_witness :
    (buildUltraPayload { prompt := "p", image_url := some "u", image_prompt_strength := some (1/2) }).image_url = some "u" ∧
    (buildUltraPayload { prompt := "p", image_url := some "u", image_prompt_strength := some (1/2) }).image_prompt_strength = some (1/2) :=
  ⟨c6_optional_fields.2.2.2.1 _ "u" rfl (by decide),
   c6_optional_fields.2.2.2.2.2.1 _ (1/2) rfl (by norm_num)⟩

/-- C7: when the caller leaves the safety, tolerance and format options
unset, both payload builders fill in safety checker false, tolerance "6"
and format "jpeg". -/
theorem c7_default_options :
    (∀ p a n opts, opts.bind GenOptions.enable_safety_checker = none →
        opts.bind GenOptions.safety_tolerance = none →
        opts.bind GenOptions.output_format = none →
        (buildGenPayload p a n opts).enable_safety_checker = false ∧
        (buildGenPayload p a n opts).safety_tolerance = "6" ∧
        (buildGenPayload p a n opts).output_format = "jpeg") ∧
    (∀ input, input.enable_safety_checker = none → input.safety_tolerance = none →
        input.output_format = none →
        (buildUltraPayload input).enable_safety_checker = false ∧
        (buildUltraPayload input).safety_tolerance = "6" ∧
        (buildUltraPayload input).output_format = "jpeg") := by
  constructor
  · intro p a n opts h1 h2 h3
    simp [buildGenPayload, h1, h2, h3]
  · intro input h1 h2 h3
    simp [buildUltraPayload, h1, h2, h3]

/-- C7 witness with no options supplied at all. -/
theorem c7_default_options_witness :
    (buildGenPayload "p" "1:1" 1 none).enable_safety_checker = false ∧
    (buildGenPayload "p" "1:1" 1 none).safety_tolerance = "6" ∧
    (buildGenPayload "p" "1:1" 1 none).output_format = "jpeg" :=
  c7_default_options.1 "p" "1:1" 1 none rfl rfl rfl

/-- C8: every failure of `generateImage` or `generateFluxProUltraImage`
surfaces as "Failed to generate image: " followed by the underlying Error
message, with " (Status: c)" appended for a truthy status code c, and with
the literal "Unknown error" in place of the message when the thrown value
is not an Error. -/
theorem c8_error_message_format :
    (∀ msg, formatCaughtError (JsThrown.jsError msg none) =
        "Failed to generate image: " ++ msg) ∧
    (∀ msg c, c ≠ 0 → formatCaughtError (JsThrown.jsError msg (some c)) =
        "Failed to generate image: " ++ msg ++ " (Status: " ++ toString c ++ ")") ∧
    (formatCaughtError JsThrown.nonError = "Failed to generate image: Unknown error") ∧
    (∀ e m, generateImage (Except.error e) m = Except.error (formatCaughtError e)) ∧
    (∀ out m msg, generateImage out m = Except.error msg → ∃ e, msg = formatCaughtError e) ∧
    (∀ e, generateFluxProUltraImage (Except.error e) = Except.error (formatCaughtError e)) ∧
    (∀ out msg, generateFluxProUltraImage out = Except.error msg →
        ∃ e, msg = formatCaughtError e) := by
  refine ⟨?_, ?_, rfl, fun e m => rfl, ?_, fun e => rfl, ?_⟩
  · intro msg
    simp [formatCaughtError]
  · intro msg c hc
    simp [formatCaughtError, hc, String.append_assoc]
  · intro out m msg h
    rcases out with e | images
    · refine ⟨e, ?_⟩
      simp only [generateImage, Except.error.injEq] at h
      exact h.symm
    · rcases hg : genNormalize images m with e | r
      · refine ⟨e, ?_⟩
        simp only [generateImage, hg, Except.error.injEq] at h
        exact h.symm
      · simp only [generateImage, hg] at h
        exact absurd h (by simp)
  · intro out msg h
    rcases out with e | images
    · refine ⟨e, ?_⟩
      simp only [generateFluxProUltraImage, Except.error.injEq] at h
      exact h.symm
    · rcases hg : ultraNormalize images with e | u
      · refine ⟨e, ?_⟩
        simp only [generateFluxProUltraImage, hg, Except.error.injEq] at h
        exact h.symm
      · simp only [generateFluxProUltraImage, hg] at h
        exact absurd h (by simp)

/-- C8 witness: a thrown Error with message "boom" and status 429. -/
theorem c8_error_message_format_witness :
    (429 : Nat) ≠ 0 ∧
    formatCaughtError (JsThrown.jsError "boom" (some 429)) =
      "Failed to generate image: boom (Status: 429)" :=
  ⟨by decide, by rw [c8_error_message_format.2.1 "boom" 429 (by decide)]; rfl⟩

/-- C9: `generateFluxProUltraImage` only ever returns the url of the first
response image: a successful call returns exactly that url, any images
after the first are ignored (the tail is arbitrary in every clause), and a
first image without a url (or with the falsy empty url) is rejected with
the "No image URL in response" error even when later images carry urls. -/
theorem c9_first_image_url_only :
    (∀ img rest u, ultraNormalize (some (img :: rest)) = Except.ok u → img.url = some u) ∧
    (∀ img rest u, img.url = some u → u ≠ "" →
        ultraNormalize (some (img :: rest)) = Except.ok u) ∧
    (∀ img rest, img.url = none →
        ultraNormalize (some (img :: rest)) =
          Except.error (JsThrown.jsError "No image URL in response" none)) ∧
    (∀ rest, ultraNormalize (some ({ url := some "" } :: rest)) =
        Except.error (JsThrown.jsError "No image URL in response" none)) ∧
    (∀ out u, generateFluxProUltraImage out = Except.ok u →
        ∃ img rest, out = Except.ok (some (img :: rest)) ∧ img.url = some u ∧ u ≠ "") := by
  refine ⟨?_, ?_, ?_, ?_, ?_⟩
  · intro img rest u h
    rcases himg : img.url with _ | v
    · simp [ultraNormalize, himg] at h
    · by_cases hv : v = "" <;> simp [ultraNormalize, himg, hv] at h
      subst h
      rfl
  · intro img rest u hu hne
    simp [ultraNormalize, hu, hne]
  · intro img rest h
    simp [ultraNormalize, h]
  · intro rest
    simp [ultraNormalize]
  · intro out u h
    rcases out with e | images
    · simp [generateFluxProUltraImage] at h
    · rcases images with _ | imgs
      · simp [generateFluxProUltraImage, ultraNormalize] at h
      · rcases imgs with _ | ⟨img, rest⟩
        · simp [generateFluxProUltraImage, ultraNormalize] at h
        · refine ⟨img, rest, rfl, ?_⟩
          rcases himg : img.url with _ | v
          · simp [generateFluxProUltraImage, ultraNormalize, himg] at h
          · by_cases hv : v = "" <;>
              simp [generateFluxProUltraImage, ultraNormalize, himg, hv] at h
            subst h
            exact ⟨rfl, hv⟩

/-- C9 witness: a two-image response returns only the first url. -/
theorem c9_first_image_url_only_witness :
    ultraNormalize (some [{ url := some "first" }, { url := some "second" }]) =
      Except.ok "first" :=
  c9_first_image_url_only.2.1 { url := some "first" } [{ url := some "second" }] "first"
    rfl (by decide)

set_option maxRecDepth 8000 in
/-- C2: behaviour of `generateImage` on empty and absent image lists. With
`images: []` the rejection message is exactly the specified one and
references "No images in response"; with `data.images` absent the debug log
throws a TypeError BEFORE the emptiness check, so the surfaced message is
the wrapped TypeError text and does not reference "No images in response";
in both cases the call rejects (never a "COMPLETED" result), and every
successful call carries a non-empty url list. -/
theorem c2_empty_images_rejected :
    (∀ m, generateImage (Except.ok (some [])) m =
        Except.error "Failed to generate image: No images in response") ∧
    containsStr "Failed to generate image: No images in response" "No images in response" ∧
    (∀ m, generateImage (Except.ok none) m =
        Except.error
          "Failed to generate image: Cannot read properties of undefined (reading map)") ∧
    ¬ containsStr "Failed to generate image: Cannot read properties of undefined (reading map)"
        "No images in response" ∧
    (∀ out m r, generateImage out m = Except.ok r → r.imageUrls ≠ []) := by
  refine ⟨fun m => rfl, by decide, fun m => rfl, by decide, ?_⟩
  intro out m r h
  obtain ⟨imgs, _, hok⟩ := (generateImage_ok_iff out m r).mp h
  obtain ⟨hne, rfl⟩ := (genNormalize_ok_iff imgs m r).mp hok
  simpa using hne

/-- C2 witness: a one-image response is accepted with a non-empty url list. -/
theorem c2_empty_images_rejected_witness :
    GenResult.imageUrls { status := "COMPLETED", imageUrls := [some "a"], cost := 1/40 } ≠ [] :=
  c2_empty_images_rejected.2.2.2.2
    (Except.ok (some [{ url := some "a", width := some 1000, height := some 1000 }]))
    ModelAlias.fluxDev
    { status := "COMPLETED", imageUrls := [some "a"], cost := 1/40 }
    (by
      refine (generateImage_ok_iff _ _ _).mpr
        ⟨[{ url := some "a", width := some 1000, height := some 1000 }], rfl, ?_⟩
      refine (genNormalize_ok_iff _ _ _).mpr ⟨by simp, ?_⟩
      have hc : perImageCost { url := some "a", width := some 1000, height := some 1000 }
          ModelAlias.fluxDev = ((25 : ℤ) : ℚ) / 1000 :=
        perImageCost_value _ ModelAlias.fluxDev (1/40) 25
          (by norm_num [imageDimension, COST_PER_MEGAPIXEL]) (by norm_num) (by norm_num)
      simp only [List.map, List.foldl, GenResult.mk.injEq]
      refine ⟨trivial, trivial, ?_⟩
      rw [zero_add, hc]
      norm_num)

/-- C3 counterexample: an image reported with width 0 and height 1000 under
"flux-dev" is costed through the 2048 fallback (total 0.051), while the
claimed per-image formula at width 0, height 1000 gives round(0, 3) = 0, so
the returned total is not the sum of the claimed per-image costs. -/
theorem c3_zero_width_counterexample :
    genNormalize (some [{ url := some "a", width := some 0, height := some 1000 }])
        ModelAlias.fluxDev =
      Except.ok { status := "COMPLETED", imageUrls := [some "a"], cost := 51/1000 } ∧
    toFixed3 ((0 : ℚ) * 1000 / 1000000 * COST_PER_MEGAPIXEL ModelAlias.fluxDev) = 0 ∧
    (51 / 1000 : ℚ) ≠ 0 := by
  refine ⟨?_, ?_, by norm_num⟩
  · refine (genNormalize_ok_iff _ _ _).mpr ⟨by simp, ?_⟩
    have hc : perImageCost { url := some "a", width := some 0, height := some 1000 }
        ModelAlias.fluxDev = ((51 : ℤ) : ℚ) / 1000 :=
      perImageCost_value _ ModelAlias.fluxDev (64/1250) 51
        (by norm_num [imageDimension, COST_PER_MEGAPIXEL]) (by norm_num) (by norm_num)
    simp only [List.map, List.foldl, GenResult.mk.injEq]
    refine ⟨trivial, trivial, ?_⟩
    rw [zero_add, hc]
    norm_num
  · rw [show ((0 : ℚ) * 1000 / 1000000 * COST_PER_MEGAPIXEL ModelAlias.fluxDev) = 0 by
        norm_num]
    rw [toFixed3_eval 0 0 (by norm_num) (by norm_num)]
    norm_num

/-- C3 amended: `calculateImageCost` is exactly
round(width*height/1000000 * rate, 3); the returned total is the sum of
independently computed per-image costs, where each per-image cost applies
the 2048 fallback both to a missing dimension and to a dimension reported
as 0 (the falsy-based fallback `d || 2048`). -/
theorem c3_cost_formula :
    (∀ (w h : ℚ) (m : ModelAlias), 0 ≤ w → 0 ≤ h →
        calculateImageCost w h m = toFixed3 (w * h / 1000000 * COST_PER_MEGAPIXEL m)) ∧
    (∀ out m r, generateImage out m = Except.ok r →
        ∃ imgs, out = Except.ok (some imgs) ∧
          r.cost = (imgs.map (fun img => perImageCost img m)).sum) ∧
    (∀ img m, perImageCost img m =
        calculateImageCost (imageDimension img.width) (imageDimension img.height) m) ∧
    imageDimension none = 2048 ∧
    imageDimension (some 0) = 2048 ∧
    (∀ k : Nat, k ≠ 0 → imageDimension (some k) = (k : ℚ)) := by
  refine ⟨fun w h m _ _ => rfl, ?_, fun img m => rfl, rfl, by norm_num [imageDimension], ?_⟩
  · intro out m r h
    obtain ⟨imgs, hout, hok⟩ := (generateImage_ok_iff out m r).mp h
    obtain ⟨hne, rfl⟩ := (genNormalize_ok_iff imgs m r).mp hok
    exact ⟨imgs, hout, by simp [foldl_cost_eq_sum]⟩
  · intro k hk
    simp [imageDimension, hk]

/-- C3 witness: the per-image formula at 1000 by 1000 pixels. -/
theorem c3_cost_formula_witness :
    (0 : ℚ) ≤ 1000 ∧
    calculateImageCost 1000 1000 ModelAlias.fluxDev =
      toFixed3 (1000 * 1000 / 1000000 * COST_PER_MEGAPIXEL ModelAlias.fluxDev) :=
  ⟨by norm_num, c3_cost_formula.1 1000 1000 ModelAlias.fluxDev (by norm_num) (by norm_num)⟩

/-- C4: every successful `generateImage` call returns a total cost that is
nonnegative and an exact integer multiple of 0.001. -/
theorem c4_cost_nonneg_thousandth :
    ∀ out m r, generateImage out m = Except.ok r →
      0 ≤ r.cost ∧ ∃ k : ℤ, r.cost = (k : ℚ) / 1000 := by
  intro out m r h
  obtain ⟨imgs, _, hok⟩ := (generateImage_ok_iff out m r).mp h
  obtain ⟨hne, rfl⟩ := (genNormalize_ok_iff imgs m r).mp hok
  constructor
  · simp only [foldl_cost_eq_sum, zero_add]
    apply List.sum_nonneg
    intro x hx
    obtain ⟨img, _, rfl⟩ := List.mem_map.mp hx
    exact perImageCost_nonneg img m
  · simp only [foldl_cost_eq_sum, zero_add]
    apply sum_thousandths
    intro x hx
    obtain ⟨img, _, rfl⟩ := List.mem_map.mp hx
    exact toFixed3_thousandth _

/-- C4 witness on a concrete one-image success. -/
theorem c4_cost_nonneg_thousandth_witness :
    0 ≤ GenResult.cost { status := "COMPLETED", imageUrls := [some "a"], cost := 1/40 } ∧
    ∃ k : ℤ, GenResult.cost { status := "COMPLETED", imageUrls := [some "a"], cost := 1/40 }
      = (k : ℚ) / 1000 :=
  c4_cost_nonneg_thousandth
    (Except.ok (some [{ url := some "a", width := some 1000, height := some 1000 }]))
    ModelAlias.fluxDev
    { status := "COMPLETED", imageUrls := [some "a"], cost := 1/40 }
    (by
      refine (generateImage_ok_iff _ _ _).mpr
        ⟨[{ url := some "a", width := some 1000, height := some 1000 }], rfl, ?_⟩
      refine (genNormalize_ok_iff _ _ _).mpr ⟨by simp, ?_⟩
      have hc : perImageCost { url := some "a", width := some 1000, height := some 1000 }
          ModelAlias.fluxDev = ((25 : ℤ) : ℚ) / 1000 :=
        perImageCost_value _ ModelAlias.fluxDev (1/40) 25
          (by norm_num [imageDimension, COST_PER_MEGAPIXEL]) (by norm_num) (by norm_num)
      simp only [List.map, List.foldl, GenResult.mk.injEq]
      refine ⟨trivial, trivial, ?_⟩
      rw [zero_add, hc]
      norm_num)

/-- C5: every non-empty response normalizes to status "COMPLETED" with the
urls in provider order, and the spec example (1000x1000 and 2000x1000 under
"flux-dev") yields urls ["a", "b"] and total cost 0.075. -/
theorem c5_completed_urls_in_order :
    (∀ imgs m, imgs ≠ [] →
        generateImage (Except.ok (some imgs)) m =
          Except.ok { status := "COMPLETED", imageUrls := imgs.map FalImage.url,
                      cost := imgs.foldl (fun acc img => acc + perImageCost img m) 0 }) ∧
    generateImage
        (Except.ok (some [{ url := some "a", width := some 1000, height := some 1000 },
                          { url := some "b", width := some 2000, height := some 1000 }]))
        ModelAlias.fluxDev =
      Except.ok { status := "COMPLETED", imageUrls := [some "a", some "b"],
                  cost := 75/1000 } := by
  have hgen : ∀ imgs m r, genNormalize (some imgs) m = Except.ok r →
      generateImage (Except.ok (some imgs)) m = Except.ok r := by
    intro imgs m r hg
    simp [generateImage, hg]
  constructor
  · intro imgs m hne
    exact hgen imgs m _ ((genNormalize_ok_iff imgs m _).mpr ⟨hne, rfl⟩)
  · apply hgen
    refine (genNormalize_ok_iff _ _ _).mpr ⟨by simp, ?_⟩
    have ha : perImageCost { url := some "a", width := some 1000, height := some 1000 }
        ModelAlias.fluxDev = ((25 : ℤ) : ℚ) / 1000 :=
      perImageCost_value _ ModelAlias.fluxDev (1/40) 25
        (by norm_num [imageDimension, COST_PER_MEGAPIXEL]) (by norm_num) (by norm_num)
    have hb : perImageCost { url := some "b", width := some 2000, height := some 1000 }
        ModelAlias.fluxDev = ((50 : ℤ) : ℚ) / 1000 :=
      perImageCost_value _ ModelAlias.fluxDev (1/20) 50
        (by norm_num [imageDimension, COST_PER_MEGAPIXEL]) (by norm_num) (by norm_num)
    simp only [List.map, List.foldl, GenResult.mk.injEq]
    refine ⟨trivial, trivial, ?_⟩
    rw [zero_add, ha, hb]
    norm_num

/-- C5 witness: the general clause applied to a singleton response. -/
theorem c5_completed_urls_in_order_witness :
    generateImage
        (Except.ok (some [{ url := some "a", width := some 1000, height := some 1000 }]))
        ModelAlias.fluxDev =
      Except.ok { status := "COMPLETED",
                  imageUrls := ([{ url := some "a", width := some 1000, height := some 1000 }] : List FalImage).map FalImage.url,
                  cost := ([{ url := some "a", width := some 1000, height := some 1000 }] : List FalImage).foldl (fun acc img => acc + perImageCost img ModelAlias.fluxDev) 0 } :=
  c5_completed_urls_in_order.1
    [{ url := some "a", width := some 1000, height := some 1000 }]
    ModelAlias.fluxDev (by simp)

/-- C10: a dimension reported as 0 is costed exactly like a missing
dimension (the 2048 fallback), because `0 || 2048` is 2048; a 0 by 0 image
therefore costs round(rate * 2048*2048/1000000, 3), which is nonzero for
every alias. -/
theorem c10_zero_dimension_fallback :
    (∀ img m, img.width = some 0 →
        perImageCost img m = perImageCost { img with width := none } m) ∧
    (∀ img m, img.height = some 0 →
        perImageCost img m = perImageCost { img with height := none } m) ∧
    (∀ u h m, generateImage (Except.ok (some [{ url := u, width := some 0, height := h }])) m =
        generateImage (Except.ok (some [{ url := u, width := none, height := h }])) m) ∧
    (∀ m, perImageCost { url := none, width := some 0, height := some 0 } m =
        toFixed3 (2048 * 2048 / 1000000 * COST_PER_MEGAPIXEL m)) ∧
    (∀ m, perImageCost { url := none, width := some 0, height := some 0 } m ≠ 0) := by
  have hdim : ∀ img : FalImage, img.width = some 0 →
      imageDimension img.width = imageDimension none := by
    intro img h
    rw [h]
    norm_num [imageDimension]
  refine ⟨?_, ?_, ?_, ?_, ?_⟩
  · intro img m h
    unfold perImageCost
    rw [hdim img h]
  · intro img m h
    unfold perImageCost
    rw [show imageDimension img.height = imageDimension none by rw [h]; norm_num [imageDimension]]
  · intro u h m
    have hg : genNormalize (some [{ url := u, width := some 0, height := h }]) m =
        genNormalize (some [{ url := u, width := none, height := h }]) m := by
      unfold genNormalize
      simp only [List.length_cons, List.length_nil]
      have hp : perImageCost { url := u, width := some 0, height := h } m =
          perImageCost { url := u, width := none, height := h } m := by
        unfold perImageCost
        norm_num [imageDimension]
      simp [hp]
    simp only [generateImage, hg]
  · intro m
    unfold perImageCost calculateImageCost
    norm_num [imageDimension]
  · intro m
    have h : 0 < perImageCost { url := none, width := some 0, height := some 0 } m := by
      unfold perImageCost calculateImageCost
      apply toFixed3_pos
      cases m <;> norm_num [imageDimension, COST_PER_MEGAPIXEL]
    exact h.ne'

/-- C10 witness: a 0-width image is costed like a missing-width image. -/
theorem c10_zero_dimension_fallback_witness :
    perImageCost { url := none, width := some 0, height := some 1000 } ModelAlias.fluxDev =
      perImageCost { url := none, width := none, height := some 1000 } ModelAlias.fluxDev :=
  c10_zero_dimension_fallback.1 { url := none, width := some 0, height := some 1000 }
    ModelAlias.fluxDev rfl

end FluxApi
